import Mathlib

/-!
Shallow embedding of `cocotb/decorators.py`: the task wrapper around a
suspendable computation (`RunningTask`), its test specialisation
(`RunningTest`), and the `test` decorator's configuration normalisation.

Python values relevant to the claims are modelled by `Val`, exceptions by
`Exc` (a kind string, a payload and a traceback given as a list of frame
names), and the generator/coroutine being wrapped by `Coro`, a step
function from the resume `Outcome` to either a yielded trigger plus a
continuation or a raised exception (a Python generator terminates by
raising `StopIteration`, carrying the return value).
-/

set_option autoImplicit false

namespace Cocotb

/-- Python values, as far as the claims need them. -/
inductive Val where
  | none
  | int (n : Int)
  | str (s : String)
  deriving DecidableEq, Repr

/-- A Python exception: its class name (`kind`), its payload (the argument
it carries: `e.retval` for `ReturnValue`, `e.value` for `StopIteration`,
the message otherwise) and its traceback, abstracted as the list of frame
names, innermost first. -/
structure Exc where
  kind : String
  payload : Val
  traceback : List String
  deriving DecidableEq, Repr

/-- Modelled from the spec: `cocotb.outcomes` is not under src/ (only its
callers are). An `Outcome` is an immutable captured result, constructed
exactly once as either `Value(payload)` or `Error(failure)`. -/
inductive Outcome where
  | Value (v : Val)
  | Error (e : Exc)
  deriving DecidableEq, Repr

/-- Modelled from the spec: `Outcome.get()` of `cocotb.outcomes` yields
the payload or re-raises the failure at the observation point. -/
def Outcome.get : Outcome → Except Exc Val
  | .Value v => .ok v
  | .Error e => .error e

mutual
/-- The wrapped suspendable computation: a generator/coroutine, modelled by
its step function. `outcome.send(coro)` delivers the resume `Outcome` at
the current suspension point (`Value v` is sent in, `Error e` is thrown
in) and runs the body to its next yield or to termination. -/
inductive Coro where
  | mk (step : Outcome → CoroStep)

/-- What one resumption of the body does: suspend again, yielding a trigger
and leaving a continuation, or terminate by raising an exception
(`StopIteration` for a normal return, `ReturnValue` for the legacy return
signal, anything else for a propagated failure). -/
inductive CoroStep where
  | yields (trigger : Val) (rest : Coro)
  | raises (e : Exc)
end

/-- Apply a `Coro`'s step function to a resume outcome. -/
def Coro.step : Coro → Outcome → CoroStep
  | .mk f, o => f o

/-- Modelled from the spec: `cocotb.utils.remove_traceback_frames` is not
under src/ (only its caller is). Per the spec, the captured failure is
stored "with internal framework frames stripped": the frames named in
`frame_names` are removed from the exception's traceback, kind and payload
untouched. -/
def remove_traceback_frames (e : Exc) (frame_names : List String) : Exc :=
  { e with traceback := e.traceback.filter (fun f => ¬ f ∈ frame_names) }

/-- What Python kind of object `RunningTask.__init__` was handed, as probed
by `inspect.iscoroutine` / `inspect.isgenerator` / `inspect.isasyncgen`. -/
inductive InstKind where
  | coroutine
  | generator
  | asyncgen
  | other
  deriving DecidableEq, Repr

/-- `RunningTask`: per-instance wrapper around a running generator. Field
names follow the Python attributes (`_coro`, `_started`, `_callbacks`,
`_outcome`, `_natively_awaitable`). The diagnostic `__name__` and
`__qualname__` are carried as `name` and `qualname`. -/
structure RunningTask where
  _coro : Coro
  name : String
  qualname : String
  _natively_awaitable : Bool
  _started : Bool
  _callbacks : List Val
  _outcome : Option Outcome

/-- `RunningTask.__init__(inst)`: a coroutine or a generator is accepted
and wrapped (recording native awaitability); an async generator or any
other object raises `TypeError` at construction time. -/
def RunningTask.init (kind : InstKind) (inst : Coro) (name qualname : String) :
    Except Exc RunningTask :=
  match kind with
  | .coroutine => .ok { _coro := inst, name := name, qualname := qualname,
                        _natively_awaitable := true, _started := false,
                        _callbacks := [], _outcome := none }
  | .generator => .ok { _coro := inst, name := name, qualname := qualname,
                        _natively_awaitable := false, _started := false,
                        _callbacks := [], _outcome := none }
  | .asyncgen => .error { kind := "TypeError",
                          payload := .str (qualname ++ " is an async generator, not a coroutine. You likely used the yield keyword instead of await."),
                          traceback := [] }
  | .other => .error { kind := "TypeError",
                       payload := .str (name ++ " isn't a valid coroutine! Did you forget to use the yield keyword?"),
                       traceback := [] }

/-- `RunningTask.retval`: `RuntimeError` if the outcome is not yet set,
otherwise return/raise per the stored outcome. -/
def RunningTask.retval (t : RunningTask) : Except Exc Val :=
  match t._outcome with
  | none => .error { kind := "RuntimeError", payload := .str "coroutine is not complete", traceback := [] }
  | some o => o.get

/-- `RunningTask._finished`: whether the outcome is set. -/
def RunningTask._finished (t : RunningTask) : Bool :=
  t._outcome.isSome

/-- What `RunningTask._advance` communicates back to the scheduler: the
trigger yielded from the coroutine, or the raised `CoroutineComplete`
completion signal (always a fresh instance, constructed by `_advance`
itself). -/
inductive AdvanceResult where
  | yielded (trigger : Val)
  | completed
  deriving DecidableEq, Repr

/-- `RunningTask._advance(outcome)`: set `_started`, deliver `outcome` to
the coroutine; on a yield return the trigger; on `ReturnValue` or
`StopIteration` store a `Value` outcome; on any other escaping
`BaseException` store an `Error` outcome with the internal frames
`_advance` and `send` stripped. Every terminating branch signals
completion by raising a fresh `CoroutineComplete`. -/
def RunningTask._advance (t : RunningTask) (outcome : Outcome) :
    AdvanceResult × RunningTask :=
  let t := { t with _started := true }
  match t._coro.step outcome with
  | .yields trigger rest => (.yielded trigger, { t with _coro := rest })
  | .raises e =>
    if e.kind = "ReturnValue" then
      (.completed, { t with _outcome := some (.Value e.payload) })
    else if e.kind = "StopIteration" then
      (.completed, { t with _outcome := some (.Value e.payload) })
    else
      (.completed, { t with _outcome := some (.Error (remove_traceback_frames e ["_advance", "send"])) })

/-- `RunningTask.kill()`: if the outcome is already set, return (nothing to
kill); otherwise force the outcome to `Value(None)`. The call to
`cocotb.scheduler.unschedule(self)` acts on the external scheduler, which
is outside the module boundary, and is not part of the task state. -/
def RunningTask.kill (t : RunningTask) : RunningTask :=
  match t._outcome with
  | some _ => t
  | none => { t with _outcome := some (.Value .none) }

/-- `RunningTask.has_started()`. -/
def RunningTask.has_started (t : RunningTask) : Bool :=
  t._started

/-- A `logging.LogRecord`, as far as `ErrorLogHandler.handle` looks at it:
the originating logger name and the message. -/
structure LogRecord where
  name : String
  msg : String
  deriving DecidableEq, Repr

/-- `RunningTest.ErrorLogHandler.handle(record)`: a record is formatted and
handed to `fn` (which is `error_messages.append`) only when its logger
name is exactly `cocotb`; records from any other logger — including
descendants such as `cocotb.scheduler` — are dropped. `self.format` is the
external `logging.Handler` formatter, abstracted as `fmt`; the buffer the
appends accumulate into is passed and returned explicitly. -/
def ErrorLogHandler.handle (fmt : LogRecord → String) (buf : List String)
    (record : LogRecord) : List String :=
  if record.name = "cocotb" then buf ++ [fmt record] else buf

/-- The value of the `expect_error` argument of `test.__init__`: a bare
boolean, a bare exception type, or a tuple of exception types (exception
types stand for their class names). -/
inductive ExpectError where
  | boolean (b : Bool)
  | excType (t : String)
  | excTuple (ts : List String)
  deriving DecidableEq, Repr

/-- Is a stored `expect_error` a tuple of exception types? -/
def ExpectError.isTuple : ExpectError → Bool
  | .excTuple _ => true
  | _ => false

/-- The `expect_error` normalisation in `test.__init__`: `True` becomes the
one-element tuple `(Exception,)`, `False` becomes the empty tuple, and
anything else is stored as given. -/
def test_init_expect_error : ExpectError → ExpectError
  | .boolean true => .excTuple ["Exception"]
  | .boolean false => .excTuple []
  | .excType t => .excType t
  | .excTuple ts => .excTuple ts

/-- The metadata a `test` decorator instance stores (the timeout wrapper,
which only re-wraps the body coroutine, and the lazily created logger are
not part of this data). -/
structure TestDecorator where
  expect_fail : Bool
  expect_error : ExpectError
  skip : Bool
  stage : Option Int
  _id : Nat
  deriving DecidableEq, Repr

/-- The metadata storage of `test.__init__`: `_id` is drawn from the class
counter, `expect_error` is normalised, the rest is stored as given. -/
def test_init (id_count : Nat) (expect_fail : Bool) (expect_error : ExpectError)
    (skip : Bool) (stage : Option Int) : TestDecorator :=
  { expect_fail := expect_fail,
    expect_error := test_init_expect_error expect_error,
    skip := skip, stage := stage, _id := id_count }

/-- `RunningTest` (through `RunningCoroutine`): the base task state plus
the parent decorator's metadata (`module` and `funcname` come from the
decorated function, as `RunningCoroutine.__init__` records them) and the
test bookkeeping of `RunningTest.__init__`. The test-level `started` flag
is distinct from the base `_started`. Timing fields and the logger are
set by external collaborators (`time.time`, `get_sim_time`, `SimLog`) and
carried opaquely. -/
structure RunningTest extends RunningTask where
  module : String
  funcname : String
  started : Bool
  start_time : Val
  start_sim_time : Val
  expect_fail : Bool
  expect_error : ExpectError
  skip : Bool
  stage : Option Int
  _id : Nat
  error_messages : List String

/-- `RunningTest.abort(exc)`: `assert self._outcome is None` — calling
abort on an already-completed test fails the assertion (a fatal
`AssertionError`); otherwise the outcome is forced to `Error(exc)`. The
`unschedule` call acts on the external scheduler. -/
def RunningTest.abort (t : RunningTest) (exc : Exc) : Except Exc RunningTest :=
  match t._outcome with
  | some _ => .error { kind := "AssertionError", payload := .none, traceback := [] }
  | none => .ok { t with _outcome := some (.Error exc) }

/-- `RunningTest.sort_name()`: `module.funcname` when no stage is set,
otherwise `module.stage.funcname` with the stage number formatted in
decimal (`%d`). -/
def RunningTest.sort_name (t : RunningTest) : String :=
  match t.stage with
  | none => t.module ++ "." ++ t.funcname
  | some s => t.module ++ "." ++ toString s ++ "." ++ t.funcname

/-! Concrete instances used by witnesses and counterexamples. -/

/-- A body that immediately returns `None`: its first resumption raises a
bare `StopIteration`, as an exhausted Python generator does. -/
def nilCoro : Coro :=
  .mk (fun _ => .raises { kind := "StopIteration", payload := .none, traceback := [] })

/-- A freshly constructed, never-advanced task wrapping `nilCoro`. -/
def freshTask : RunningTask :=
  { _coro := nilCoro, name := "t", qualname := "t", _natively_awaitable := false,
    _started := false, _callbacks := [], _outcome := none }

/-- A task whose outcome is already set to `Value(5)`. -/
def doneTask : RunningTask :=
  { freshTask with _outcome := some (.Value (.int 5)) }

/-- A user failure whose traceback still carries the internal frames. -/
def failingExc : Exc :=
  { kind := "ValueError", payload := .str "boom",
    traceback := ["user_fn", "_advance", "send"] }

/-- A body whose first resumption raises `failingExc`. -/
def failingCoro : Coro := .mk (fun _ => .raises failingExc)

/-- A never-advanced task wrapping `failingCoro`. -/
def failingTask : RunningTask := { freshTask with _coro := failingCoro }

/-- The internal completion signal raised by the body itself, its traceback
still carrying the internal frames. -/
def ccExc : Exc :=
  { kind := "CoroutineComplete", payload := .str "",
    traceback := ["user_fn", "_advance", "send"] }

/-- A body whose first resumption raises `CoroutineComplete` itself. -/
def ccCoro : Coro := .mk (fun _ => .raises ccExc)

/-- A never-advanced task wrapping `ccCoro`. -/
def ccTask : RunningTask := { freshTask with _coro := ccCoro }

/-- A freshly constructed, never-advanced test task. -/
def freshTest : RunningTest :=
  { toRunningTask := freshTask, module := "mod", funcname := "fn", started := false,
    start_time := .none, start_sim_time := .none, expect_fail := false,
    expect_error := .excTuple [], skip := false, stage := none, _id := 0,
    error_messages := [] }

/-- A test task whose outcome is already set. -/
def doneTest : RunningTest :=
  { freshTest with _outcome := some (.Value Val.none) }

/-- A failure a sibling task might inject through `abort`. -/
def sampleExc : Exc :=
  { kind := "RuntimeError", payload := .str "sibling failed", traceback := [] }

/-- A stage-10 test of module `mod`. -/
def stage10Test : RunningTest := { freshTest with stage := some 10, funcname := "fnD" }

/-- A stage-2 test of module `mod`. -/
def stage2Test : RunningTest := { freshTest with stage := some 2, funcname := "fnE" }

/-- A log record sent directly to the `cocotb` logger. -/
def cocotbRecord : LogRecord := { name := "cocotb", msg := "m1" }

/-- A log record from the descendant `cocotb.scheduler` logger. -/
def schedRecord : LogRecord := { name := "cocotb.scheduler", msg := "m2" }

/-! Theorems settling the claims. -/

/-- C1: `kill()` is idempotent and forces completion without running the
body. An already-set outcome leaves the task unchanged (no-op); otherwise
— even when the task has never been advanced — the outcome becomes the
synthetic success `Value(None)`, so the task is completed. The wrapped
computation is left untouched, and `kill` is insensitive to which body
the task wraps, so no body code can run. Killing twice equals killing
once. -/
theorem kill_idempotent_forces_completion (t : RunningTask) :
    t.kill._outcome = some (t._outcome.getD (Outcome.Value Val.none))
    ∧ (∀ o, t._outcome = some o → t.kill = t)
    ∧ t.kill._coro = t._coro
    ∧ t.kill._started = t._started
    ∧ (∀ c, RunningTask.kill { t with _coro := c } = { t.kill with _coro := c })
    ∧ t.kill.kill = t.kill := by
  cases h : t._outcome <;>
    simp [RunningTask.kill, h]

/-- C1 witness: killing a completed task is a no-op; killing a fresh task
forces the outcome `Value(None)`. -/
theorem kill_idempotent_forces_completion_witness :
    RunningTask.kill doneTask = doneTask
    ∧ (RunningTask.kill freshTask)._outcome = some (Outcome.Value Val.none) :=
  ⟨(kill_idempotent_forces_completion doneTask).2.1 (Outcome.Value (Val.int 5)) rfl,
   (kill_idempotent_forces_completion freshTask).1⟩

/-- C3: reading `retval` before the outcome is set raises
`RuntimeError("coroutine is not complete")`; once the outcome is set,
`retval` returns the stored payload or raises the stored failure, exactly
per the stored outcome. -/
theorem retval_requires_completion (t : RunningTask) :
    (t._outcome = none →
      t.retval = .error { kind := "RuntimeError",
                          payload := .str "coroutine is not complete", traceback := [] })
    ∧ (∀ o, t._outcome = some o → t.retval = o.get) := by
  refine ⟨fun h => ?_, fun o h => ?_⟩ <;>
    simp [RunningTask.retval, h]

/-- C3 witness: a fresh task rejects `retval`; a completed task returns its
stored value. -/
theorem retval_requires_completion_witness :
    RunningTask.retval freshTask
      = .error { kind := "RuntimeError",
                 payload := .str "coroutine is not complete", traceback := [] }
    ∧ RunningTask.retval doneTask = .ok (Val.int 5) :=
  ⟨(retval_requires_completion freshTask).1 rfl,
   (retval_requires_completion doneTask).2 (Outcome.Value (Val.int 5)) rfl⟩

/-- C2: a failure escaping the wrapped computation during `_advance` (any
raised exception other than the `ReturnValue` and `StopIteration` return
signals) is stored as an `Error` outcome whose exception keeps the
original kind and payload but has the internal frames `_advance` and
`send` stripped from its traceback, and `retval` re-raises exactly that
stored exception. -/
theorem advance_failure_strips_frames (t : RunningTask) (o : Outcome) (e : Exc)
    (hstep : t._coro.step o = .raises e)
    (hk1 : e.kind ≠ "ReturnValue") (hk2 : e.kind ≠ "StopIteration") :
    (t._advance o).1 = .completed
    ∧ ((t._advance o).2)._outcome
        = some (.Error (remove_traceback_frames e ["_advance", "send"]))
    ∧ ((t._advance o).2).retval = .error (remove_traceback_frames e ["_advance", "send"])
    ∧ (remove_traceback_frames e ["_advance", "send"]).kind = e.kind
    ∧ (remove_traceback_frames e ["_advance", "send"]).payload = e.payload
    ∧ (∀ f, f ∈ (remove_traceback_frames e ["_advance", "send"]).traceback
        ↔ (f ∈ e.traceback ∧ f ≠ "_advance" ∧ f ≠ "send")) := by
  refine ⟨?_, ?_, ?_, rfl, rfl, ?_⟩ <;>
    simp [RunningTask._advance, RunningTask.retval, Outcome.get, hstep, hk1, hk2,
          remove_traceback_frames, List.mem_filter, and_assoc]

/-- C2 witness: advancing `failingTask` stores the `ValueError` with the
internal frames removed from its traceback, and `retval` re-raises it. -/
theorem advance_failure_strips_frames_witness :
    ((RunningTask._advance failingTask (Outcome.Value Val.none)).2).retval
      = .error { kind := "ValueError", payload := .str "boom", traceback := ["user_fn"] } :=
  (advance_failure_strips_frames failingTask (Outcome.Value Val.none) failingExc
    rfl (by decide) (by decide)).2.2.1

/-- C6: a body that terminates by returning `V` — by plain return, raising
`StopIteration(V)`, or by the legacy `ReturnValue(V)` signal — leaves the
task with the success outcome `Value(V)`, and `retval` then returns `V`. -/
theorem advance_return_stores_value (t : RunningTask) (o : Outcome) (e : Exc) (V : Val)
    (hstep : t._coro.step o = .raises e)
    (hk : e.kind = "ReturnValue" ∨ e.kind = "StopIteration")
    (hv : e.payload = V) :
    (t._advance o).1 = .completed
    ∧ ((t._advance o).2)._outcome = some (.Value V)
    ∧ ((t._advance o).2).retval = .ok V := by
  subst hv
  rcases hk with hk | hk <;>
    simp [RunningTask._advance, RunningTask.retval, Outcome.get, hstep, hk]

/-- C6 witness: advancing `freshTask` (whose body returns `None`) stores
`Value(None)` and `retval` returns `None`. -/
theorem advance_return_stores_value_witness :
    ((RunningTask._advance freshTask (Outcome.Value Val.none)).2).retval = .ok Val.none :=
  (advance_return_stores_value freshTask (Outcome.Value Val.none)
    { kind := "StopIteration", payload := .none, traceback := [] } Val.none
    rfl (Or.inr rfl) rfl).2.2

/-- C7: handing `RunningTask.__init__` anything that is neither a coroutine
object nor a generator fails at construction time with a `TypeError`; no
task is produced, so the failure cannot be deferred to a first advance. -/
theorem init_rejects_non_resumable (k : InstKind) (inst : Coro) (name qualname : String)
    (h1 : k ≠ InstKind.coroutine) (h2 : k ≠ InstKind.generator) :
    ∃ e, RunningTask.init k inst name qualname = .error e ∧ e.kind = "TypeError" := by
  cases k
  · exact absurd rfl h1
  · exact absurd rfl h2
  · exact ⟨_, rfl, rfl⟩
  · exact ⟨_, rfl, rfl⟩

/-- C7 witness: constructing from a non-coroutine, non-generator object
fails with a `TypeError`. -/
theorem init_rejects_non_resumable_witness :
    ∃ e, RunningTask.init InstKind.other nilCoro "f" "f" = .error e
      ∧ e.kind = "TypeError" :=
  init_rejects_non_resumable InstKind.other nilCoro "f" "f"
    (by decide) (by decide)

/-- C4: `abort(failure)` on an already-completed test fails its assertion —
a fatal contract error, not a no-op — while on a not-yet-completed test it
immediately sets the outcome to `Error(failure)`, after which `retval`
raises exactly that failure. -/
theorem abort_precondition_and_effect (t : RunningTest) (exc : Exc) :
    (∀ o, t._outcome = some o →
      t.abort exc = .error { kind := "AssertionError", payload := Val.none, traceback := [] })
    ∧ (t._outcome = none →
      t.abort exc = .ok { t with _outcome := some (.Error exc) }
      ∧ RunningTask.retval
          ({ t with _outcome := some (Outcome.Error exc) } : RunningTest).toRunningTask
        = .error exc) := by
  refine ⟨fun o h => ?_, fun h => ⟨?_, ?_⟩⟩ <;>
    simp [RunningTest.abort, RunningTask.retval, Outcome.get, h]

/-- C4 witness: aborting a completed test fails the assertion; aborting a
fresh test forces the `Error` outcome. -/
theorem abort_precondition_and_effect_witness :
    RunningTest.abort doneTest sampleExc
      = .error { kind := "AssertionError", payload := Val.none, traceback := [] }
    ∧ RunningTest.abort freshTest sampleExc
      = .ok { freshTest with _outcome := some (.Error sampleExc) } :=
  ⟨(abort_precondition_and_effect doneTest sampleExc).1 (Outcome.Value Val.none) rfl,
   ((abort_precondition_and_effect freshTest sampleExc).2 rfl).1⟩

/-- C5 counterexample: when the wrapped computation itself raises the
internal completion signal `CoroutineComplete`, the catch-all clause of
`_advance` stores it (frames stripped) as the `Error` outcome, and
`retval` then re-raises the internal signal: it is observable outside the
module boundary, contrary to the claim. -/
theorem coroutine_complete_observable_via_retval :
    ((RunningTask._advance ccTask (Outcome.Value Val.none)).2)._outcome
      = some (.Error { kind := "CoroutineComplete", payload := .str "",
                       traceback := ["user_fn"] })
    ∧ ((RunningTask._advance ccTask (Outcome.Value Val.none)).2).retval
      = .error { kind := "CoroutineComplete", payload := .str "",
                 traceback := ["user_fn"] } := by
  exact ⟨rfl, rfl⟩

/-- C5 amended: a body-raised `CoroutineComplete` never escapes `_advance`
as-is — `_advance` reports completion through a fresh signal of its own —
but it is captured like any other escaping failure: it becomes the stored
`Error` outcome (frames stripped) and is observable through `retval`. -/
theorem advance_captures_coroutine_complete (t : RunningTask) (o : Outcome) (e : Exc)
    (hstep : t._coro.step o = .raises e) (hk : e.kind = "CoroutineComplete") :
    (t._advance o).1 = .completed
    ∧ ((t._advance o).2)._outcome
        = some (.Error (remove_traceback_frames e ["_advance", "send"]))
    ∧ ((t._advance o).2).retval
        = .error (remove_traceback_frames e ["_advance", "send"]) := by
  refine ⟨?_, ?_, ?_⟩ <;>
    simp [RunningTask._advance, RunningTask.retval, Outcome.get, hstep, hk]

/-- C5 amended witness: the body-raised signal of `ccTask` is stored and
re-raised by `retval`. -/
theorem advance_captures_coroutine_complete_witness :
    ((RunningTask._advance ccTask (Outcome.Value Val.none)).2).retval
      = .error { kind := "CoroutineComplete", payload := .str "",
                 traceback := ["user_fn"] } :=
  (advance_captures_coroutine_complete ccTask (Outcome.Value Val.none) ccExc rfl rfl).2.2

/-- A shared prefix preserves strict lexicographic order of character
lists. -/
theorem lex_append_left {l a b : List Char} (h : a < b) : l ++ a < l ++ b := by
  induction l with
  | nil => exact h
  | cons c cs ih => exact List.Lex.cons ih

/-- Evaluating `sort_name` when a stage is set. -/
theorem sort_name_some (t : RunningTest) (s : Int) (h : t.stage = some s) :
    t.sort_name = t.module ++ "." ++ toString s ++ "." ++ t.funcname := by
  unfold RunningTest.sort_name
  rw [h]

/-- C8: the sort key embeds the stage by decimal formatting, so two tests
of the same module with stages 10 and 2 compare lexicographically with the
stage-10 key strictly below the stage-2 key, whatever the function names
are. -/
theorem sort_name_stage10_lt_stage2 (t1 t2 : RunningTest)
    (hm : t1.module = t2.module) (h1 : t1.stage = some 10) (h2 : t2.stage = some 2) :
    t1.sort_name < t2.sort_name := by
  rw [sort_name_some t1 10 h1, sort_name_some t2 2 h2, hm,
      show toString (10 : Int) = "10" from rfl,
      show toString (2 : Int) = "2" from rfl]
  rw [String.lt_iff_toList_lt]
  simp only [String.toList, String.data_append, List.append_assoc]
  rw [show ".".data ++ ("10".data ++ (".".data ++ t1.funcname.data))
        = '.' :: '1' :: '0' :: '.' :: t1.funcname.data from rfl,
      show ".".data ++ ("2".data ++ (".".data ++ t2.funcname.data))
        = '.' :: '2' :: '.' :: t2.funcname.data from rfl]
  exact lex_append_left (List.Lex.cons (List.Lex.rel (by decide)))

/-- C8 witness: the stage-10 key of `mod.fnD` sorts strictly before the
stage-2 key of `mod.fnE`. -/
theorem sort_name_stage10_lt_stage2_witness :
    RunningTest.sort_name stage10Test < RunningTest.sort_name stage2Test :=
  sort_name_stage10_lt_stage2 stage10Test stage2Test rfl rfl rfl

/-- C9: the captured-log buffer appends a formatted entry exactly when the
record originates from the `cocotb` logger itself; a record from any other
logger — in particular from a descendant namespace `cocotb.<child>` —
leaves the buffer unchanged. -/
theorem handle_records_only_own_namespace (fmt : LogRecord → String)
    (buf : List String) (r : LogRecord) :
    (r.name = "cocotb" → ErrorLogHandler.handle fmt buf r = buf ++ [fmt r])
    ∧ (r.name ≠ "cocotb" → ErrorLogHandler.handle fmt buf r = buf)
    ∧ (∀ child, ErrorLogHandler.handle fmt buf { r with name := "cocotb." ++ child } = buf) := by
  refine ⟨fun h => ?_, fun h => ?_, fun child => ?_⟩
  · simp [ErrorLogHandler.handle, h]
  · simp [ErrorLogHandler.handle, h]
  · have hne : "cocotb." ++ child ≠ "cocotb" := by
      intro hEq
      have hlen := congrArg String.length hEq
      rw [String.length_append, show "cocotb.".length = 7 from rfl,
          show "cocotb".length = 6 from rfl] at hlen
      omega
    simp [ErrorLogHandler.handle, hne]

/-- C9 witness: a record sent to the `cocotb` logger is appended, one from
`cocotb.scheduler` is not. -/
theorem handle_records_only_own_namespace_witness :
    ErrorLogHandler.handle LogRecord.msg ["m0"] cocotbRecord = ["m0", "m1"]
    ∧ ErrorLogHandler.handle LogRecord.msg ["m0"] schedRecord = ["m0"] :=
  ⟨(handle_records_only_own_namespace LogRecord.msg ["m0"] cocotbRecord).1 rfl,
   (handle_records_only_own_namespace LogRecord.msg ["m0"] schedRecord).2.2 "scheduler"⟩

/-- C10 counterexample: an explicitly given bare exception type is stored
unchanged — as a bare type, not as a tuple — so the stored `expect_error`
is not always a tuple of exception types. -/
theorem expect_error_bare_type_is_not_a_tuple :
    (test_init 0 false (ExpectError.excType "ValueError") false none).expect_error
      = ExpectError.excType "ValueError"
    ∧ ((test_init 0 false (ExpectError.excType "ValueError") false none).expect_error).isTuple
      = false := by
  exact ⟨rfl, rfl⟩

/-- C10 amended: `expect_error=True` is stored as the one-element tuple
`(Exception,)`, `False` as the empty tuple, and an explicitly given
exception type or tuple of types is stored unchanged; the stored value is
never a bare boolean, though a bare exception type stays a bare type
rather than being wrapped into a tuple. -/
theorem expect_error_normalisation (id_count : Nat) (ef : Bool) (ee : ExpectError)
    (sk : Bool) (st : Option Int) :
    (test_init id_count ef (ExpectError.boolean true) sk st).expect_error
      = ExpectError.excTuple ["Exception"]
    ∧ (test_init id_count ef (ExpectError.boolean false) sk st).expect_error
      = ExpectError.excTuple []
    ∧ (∀ ty, (test_init id_count ef (ExpectError.excType ty) sk st).expect_error
        = ExpectError.excType ty)
    ∧ (∀ tys, (test_init id_count ef (ExpectError.excTuple tys) sk st).expect_error
        = ExpectError.excTuple tys)
    ∧ (∀ b, (test_init id_count ef ee sk st).expect_error ≠ ExpectError.boolean b) := by
  refine ⟨rfl, rfl, fun ty => rfl, fun tys => rfl, fun b => ?_⟩
  cases ee with
  | boolean b2 => cases b2 <;> simp [test_init, test_init_expect_error]
  | excType ty => simp [test_init, test_init_expect_error]
  | excTuple tys => simp [test_init, test_init_expect_error]

end Cocotb
